import Mathlib

/-!
Shallow embedding of the extraction core of `src/scrape.py` (tmc-scraper):
period classification, period-slot detection, filter configuration, record
assembly, and the PDF volume extraction heuristics. Network retrieval,
HTML/CSS selection, spreadsheet cell access and regex matching are abstracted
to their results (the selected element texts, the parsed windows, the
captured numeric runs); everything downstream of those results is translated
line-by-line from the Python source.
-/

namespace TMCScrape

/-- Period classification outcome for a detected peak window
(`_scrape_tmc` lines 163-173 and `_read_pdf` lines 554-564). -/
inductive Classification
  | AM
  | MD
  | PM
  | UNCLASSIFIED
deriving DecidableEq, Repr

/-- The start-hour classification chain shared by the HTML adapter
(`OldTMCScraper._scrape_tmc`, `if 6 <= peak_start_hr <= 8: ... elif 9 <=
peak_start_hr <= 15: ... elif 16 <= peak_start_hr <= 19: ... else: continue`)
and the PDF adapter (`RecentTMCScraper._read_pdf`, identical chain). -/
def classifyStartHour (h : Nat) : Classification :=
  if 6 ≤ h ∧ h ≤ 8 then .AM
  else if 9 ≤ h ∧ h ≤ 15 then .MD
  else if 16 ≤ h ∧ h ≤ 19 then .PM
  else .UNCLASSIFIED

/-- The mutable bookkeeping of the detection loop: `control_dict`'s
`table_key` entries together with the `available_am/md/pm` locals. -/
structure SlotState where
  amKey : Option Nat
  mdKey : Option Nat
  pmKey : Option Nat
  availAM : Bool
  availMD : Bool
  availPM : Bool
deriving DecidableEq, Repr

/-- Initial state: `table_key = None` for every label,
`available_am = available_md = available_pm = False`. -/
def initSlotState : SlotState :=
  { amKey := none, mdKey := none, pmKey := none,
    availAM := false, availMD := false, availPM := false }

/-- One iteration of the detection loop of `_scrape_tmc` (lines 158-173) /
`_read_pdf` (lines 549-564): `i` is the candidate anchor position, `startHr`
the parsed start hour of the peak window found there (`none` when
`_get_peak_hour` returned `None`). A window classifying to a label sets that
label's `table_key` to `i` and its availability to `True`; an unclassified or
missing window leaves the state unchanged (`else: continue`). -/
def detectStep (s : SlotState) (i : Nat) (startHr : Option Nat) : SlotState :=
  match startHr with
  | none => s
  | some h =>
    match classifyStartHour h with
    | .AM => { s with amKey := some i, availAM := true }
    | .MD => { s with mdKey := some i, availMD := true }
    | .PM => { s with pmKey := some i, availPM := true }
    | .UNCLASSIFIED => s

/-- The full detection loop over the candidate windows, in source order:
`for i in range(2,5)` in the HTML adapter, `for i in range(0,len(periods))`
in the PDF adapter. Each pair is (anchor position, parsed start hour). -/
def detectPeriods (windows : List (Nat × Option Nat)) : SlotState :=
  windows.foldl (fun s p => detectStep s p.1 p.2) initSlotState

/-- The `table_key` recorded for a given (classified) label. -/
def keyOf (c : Classification) (s : SlotState) : Option Nat :=
  match c with
  | .AM => s.amKey
  | .MD => s.mdKey
  | .PM => s.pmKey
  | .UNCLASSIFIED => none

/-- `WebScraper.filter_options`: one boolean per period label, all
initialised to `True`. -/
structure FilterOptions where
  am : Bool
  pm : Bool
  md : Bool
deriving DecidableEq, Repr

/-- `self.filter_options = {'AM': True, 'PM': True, 'MD': True}`. -/
def defaultFilterOptions : FilterOptions :=
  { am := true, pm := true, md := true }

/-- `WebScraper._set_filters`: `for filter_key in period_filters: if
filter_key in self.filter_options: self.filter_options[filter_key] = True`.
Note the body only ever assigns `True`. -/
def setFilters (opts : FilterOptions) (period_filters : List String) : FilterOptions :=
  period_filters.foldl (fun o k =>
    if k = "AM" then { o with am := true }
    else if k = "PM" then { o with pm := true }
    else if k = "MD" then { o with md := true }
    else o) opts

/-- `WebScraper.__init__`: defaults, then `if period_filters:
self._set_filters(period_filters)`. `none` models Python `None`; `some []`
models an empty list, which is falsy, so `_set_filters` is skipped. The
result holds the `collect_am/pm/md` attributes set by `_apply_filters`. -/
def initFilters (period_filters : Option (List String)) : FilterOptions :=
  match period_filters with
  | none => defaultFilterOptions
  | some l =>
    if l.isEmpty then defaultFilterOptions
    else setFilters defaultFilterOptions l

/-- The three period labels appearing as record-key prefixes. -/
inductive PeriodLabel
  | AM
  | MD
  | PM
deriving DecidableEq, Repr

/-- The f-string tag used for a label's record keys. -/
def tagOf : PeriodLabel → String
  | .AM => "AM"
  | .MD => "MD"
  | .PM => "PM"

/-- The thirteen per-period key suffixes written by the assembly loop of
`_scrape_tmc` lines 195-209 (identically `_read_xlsx` lines 442-456 and
`_read_pdf` lines 588-602): the peak hour plus the twelve directional
volume fields. -/
def periodFieldSuffixes : List String :=
  ["peak_hour",
   "north_bikes_vol", "north_peds_vol", "north_veh_vol",
   "east_bikes_vol", "east_peds_vol", "east_veh_vol",
   "south_bikes_vol", "south_peds_vol", "south_veh_vol",
   "west_bikes_vol", "west_peds_vol", "west_veh_vol"]

/-- The per-period key block `f'{tag}_...'` for one label. -/
def periodBlock (l : PeriodLabel) : List String :=
  periodFieldSuffixes.map (fun s => tagOf l ++ "_" ++ s)

/-- The document-level keys written unconditionally by the first
`tmc.update` (lines 179-189 / 426-436 / 570-580). -/
def baseKeys : List String :=
  ["date", "weather", "type",
   "AM_available", "AM_scraped",
   "MD_available", "MD_scraped",
   "PM_available", "PM_scraped"]

/-- The available/collect flag pairs a record assembly starts from. -/
structure Flags where
  availAM : Bool
  availMD : Bool
  availPM : Bool
  collectAM : Bool
  collectMD : Bool
  collectPM : Bool
deriving DecidableEq, Repr

def availOf (f : Flags) : PeriodLabel → Bool
  | .AM => f.availAM
  | .MD => f.availMD
  | .PM => f.availPM

def collectOf (f : Flags) : PeriodLabel → Bool
  | .AM => f.collectAM
  | .MD => f.collectMD
  | .PM => f.collectPM

/-- `control_dict[key]['check'] = self.collect_X and available_X`
(lines 175-177 / 422-424 / 566-568). -/
def controlCheck (collect avail : Bool) : Bool :=
  collect && avail

/-- The ordered key set of the `tmc` dict built by `_scrape_tmc` /
`_read_xlsx` / `_read_pdf`: the unconditional document-level update, then,
iterating `control_dict` in insertion order AM, MD, PM, the thirteen-key
period block for every label whose `check` is true (lines 191-209 /
438-456 / 582-602). All keys are distinct, so the dict's key set is this
list. -/
def assembleKeys (f : Flags) : List String :=
  baseKeys
    ++ (if controlCheck f.collectAM f.availAM then periodBlock .AM else [])
    ++ (if controlCheck f.collectMD f.availMD then periodBlock .MD else [])
    ++ (if controlCheck f.collectPM f.availPM then periodBlock .PM else [])

/-- Detection state of the spreadsheet adapter `_read_xlsx`: `control_dict`
`table_key`s plus the availability locals. -/
structure XlsxSlotState where
  amKey : Option Nat
  mdKey : Option Nat
  pmKey : Option Nat
  availAM : Bool
  availMD : Bool
  availPM : Bool
deriving DecidableEq, Repr

def initXlsxSlotState : XlsxSlotState :=
  { amKey := none, mdKey := none, pmKey := none,
    availAM := false, availMD := false, availPM := false }

/-- One iteration of the `for i in [32,62,92]` loop of `_read_xlsx`
(lines 399-420). `window i` is the peak window parsed at anchor `i`
(`none` when `_xlsx_get_peak_hour` returned `None`), given as
(start, end) in seconds of day; `period_check` is
`(pd.to_datetime(peak_end) - pd.to_datetime(peak_start)).total_seconds()
== 3600`. -/
def xlsxDetectStep (s : XlsxSlotState) (i : Nat) (window : Option (Int × Int)) :
    XlsxSlotState :=
  match window with
  | none => s
  | some (st, en) =>
    if i = 32 ∧ en - st = 3600 then { s with amKey := some i, availAM := true }
    else if i = 62 ∧ en - st = 3600 then { s with mdKey := some i, availMD := true }
    else if i = 92 ∧ en - st = 3600 then { s with pmKey := some i, availPM := true }
    else s

/-- The full `_read_xlsx` detection loop: anchors 32, 62, 92 in order. -/
def readXlsxDetect (window : Nat → Option (Int × Int)) : XlsxSlotState :=
  [32, 62, 92].foldl (fun s i => xlsxDetectStep s i (window i)) initXlsxSlotState

/-- A token of the linearized PDF page text, as seen by the regex
`(Bikes|Peds|PEDs)\s*(\d+)`: either a keyword immediately followed by a
number (a match, carrying the keyword and the digits), or any other text. -/
inductive PdfToken
  | tagged (kw : String) (num : String)
  | plain (s : String)
deriving DecidableEq, Repr

/-- `_get_peds_and_bikes_vol` per segment (lines 629-632):
`matches = re.findall(r"(Bikes|Peds|PEDs)\s*(\d+)", section)`,
`numbers = [number for keyword, number in matches]`,
`elements.append(numbers[:8])` — the first eight keyword-tagged numbers. -/
def pbNumbers (segment : List PdfToken) : List String :=
  (segment.filterMap fun t =>
    match t with
    | .tagged kw n =>
      if kw = "Bikes" ∨ kw = "Peds" ∨ kw = "PEDs" then some n else none
    | .plain _ => none).take 8

/-- The eight pedestrian/bicycle record fields of one PDF period block. -/
structure PedsBikes where
  north_peds : Option String
  north_bikes : Option String
  east_peds : Option String
  east_bikes : Option String
  south_peds : Option String
  south_bikes : Option String
  west_peds : Option String
  west_bikes : Option String
deriving DecidableEq, Repr

/-- The positional assignment of `_read_pdf` lines 590-600:
`peds_and_bikes_vol[i] if len(peds_and_bikes_vol) > i else None`, with
north-bikes at 0, north-peds at 1, west-bikes at 2, west-peds at 3,
east-peds at 4, east-bikes at 5, south-peds at 6, south-bikes at 7. -/
def assignPedsBikes (pb : List String) : PedsBikes :=
  { north_bikes := pb[0]?
    north_peds := pb[1]?
    west_bikes := pb[2]?
    west_peds := pb[3]?
    east_peds := pb[4]?
    east_bikes := pb[5]?
    south_peds := pb[6]?
    south_bikes := pb[7]? }

/-- Segment scan composed with the positional assignment: the
pedestrian/bicycle part of one period block of `_read_pdf`. -/
def pdfPedsBikes (segment : List PdfToken) : PedsBikes :=
  assignPedsBikes (pbNumbers segment)

/-- Outcome of a vehicle-volume field in `_get_veh_vol`'s `elements` dict:
a key may be missing (absent), hold an integer, or hold the literal
string `'manual_check'`. -/
inductive VolOutcome
  | absent
  | value (n : Int)
  | manualCheck
deriving DecidableEq, Repr

/-- The east/west branch of `_get_veh_vol` (lines 657-692), keyed on the
length of scan 2's captured run `results[1]`:
length > 4 → west = first, east = last; length 4 → symmetric pairs give
west = first, east = last, otherwise `decision = max(results[1])` goes to
each end it equals and the other side is `None`; length 3 → same
`decision` rule; length 2 → both `'manual_check'`; length 0 or 1 → no
key is written. Returns (east, west). -/
def eastWest : List Int → VolOutcome × VolOutcome
  | [] => (.absent, .absent)
  | [_] => (.absent, .absent)
  | [_, _] => (.manualCheck, .manualCheck)
  | [a, b, c] =>
    let decision := max (max a b) c
    ((if decision = c then .value decision else .absent),
     (if decision = a then .value decision else .absent))
  | [a, b, c, d] =>
    if a = b ∧ c = d then (.value d, .value a)
    else
      let decision := max (max (max a b) c) d
      ((if decision = d then .value decision else .absent),
       (if decision = a then .value decision else .absent))
  | a :: b :: c :: d :: e :: rest =>
    (.value ((a :: b :: c :: d :: e :: rest).getLastI), .value a)

/-- The four vehicle-volume outcomes of one PDF period block. -/
structure VehVol where
  north : VolOutcome
  south : VolOutcome
  east : VolOutcome
  west : VolOutcome
deriving DecidableEq, Repr

/-- Python `max` over a nonempty list `a :: rest`. -/
def runMax (a : Int) (rest : List Int) : Int :=
  rest.foldl max a

/-- `_get_veh_vol` (lines 636-698) given the three captured runs
`results[0]`, `results[1]`, `results[2]` of the three regex scans:
east/west from the scan-2 run per `eastWest`, then unconditionally
`north = results[0][0] if results[0] else None` and
`south = max(results[2]) if results[2] else None`. -/
def get_veh_vol (r0 r1 r2 : List Int) : VehVol :=
  let ew := eastWest r1
  { east := ew.1
    west := ew.2
    north := match r0 with
      | [] => .absent
      | a :: _ => .value a
    south := match r2 with
      | [] => .absent
      | a :: rest => .value (runMax a rest) }

/-- `re.findall(r'\d+', s)`: the maximal runs of consecutive digit
characters of `s`, in order. -/
def digitRunsAux : List Char → List Char → List String
  | [], acc => if acc.isEmpty then [] else [String.mk acc.reverse]
  | c :: cs, acc =>
    if c.isDigit then digitRunsAux cs (c :: acc)
    else (if acc.isEmpty then [] else [String.mk acc.reverse]) ++ digitRunsAux cs []

def digitRuns (s : String) : List String :=
  digitRunsAux s.data []

/-- `OldTMCScraper._get_north_bikes_vol` (lines 233-235), with the CSS
selection abstracted to its result `elements` (the texts of the selected
nodes): `re.findall(r'\d+', elements[0].text)[0] if elements else None`.
When `elements` is nonempty but its first text holds no digit run, the
`[0]` subscript raises `IndexError`; the error carries out of the
locator (`Except.error`). -/
def get_north_bikes_vol (elements : List String) : Except String (Option String) :=
  match elements with
  | [] => .ok none
  | e :: _ =>
    match digitRuns e with
    | [] => .error "IndexError: list index out of range"
    | d :: _ => .ok (some d)

/-- The try/except structure of `OldTMCScraper._scrape_tmc` (lines 146-215)
around one field lookup: any exception raised while building the record is
caught by the outer `except Exception`, which logs and returns `None` for
the whole document, so no record is emitted. On success the record maps
the field key to the locator's value. -/
def scrapeRecordNorthBikes (tag : String) (elements : List String) :
    Option (List (String × Option String)) :=
  match get_north_bikes_vol elements with
  | .error _ => none
  | .ok v => some [(tag ++ "_north_bikes_vol", v)]

/-- A concrete PDF segment whose keyword-tagged numbers are "0" .. "7" in
order, with an untagged token interleaved; used to evaluate the positional
assignment on a distinguishable input. -/
def segEx : List PdfToken :=
  [.tagged "Peds" "0", .tagged "Bikes" "1", .plain "Cars",
   .tagged "Peds" "2", .tagged "Bikes" "3",
   .tagged "Peds" "4", .tagged "Bikes" "5",
   .tagged "Peds" "6", .tagged "Bikes" "7"]

/-! ## Shared helper lemmas -/

theorem foldl_max_choice (rest : List Int) :
    ∀ a : Int, rest.foldl max a = a ∨ rest.foldl max a ∈ rest := by
  induction rest with
  | nil => intro a; left; rfl
  | cons b bs ih =>
    intro a
    rcases ih (max a b) with h | h
    · rcases max_choice a b with hm | hm
      · left; rw [List.foldl_cons, h, hm]
      · right; rw [List.foldl_cons, h, hm]; exact List.mem_cons_self b bs
    · right; exact List.mem_cons_of_mem b h

theorem le_foldl_max (rest : List Int) :
    ∀ a : Int, a ≤ rest.foldl max a ∧ ∀ x ∈ rest, x ≤ rest.foldl max a := by
  induction rest with
  | nil => intro a; exact ⟨le_refl a, by intro x hx; cases hx⟩
  | cons b bs ih =>
    intro a
    obtain ⟨h1, h2⟩ := ih (max a b)
    constructor
    · exact le_trans (le_max_left a b) h1
    · intro x hx
      rcases List.mem_cons.mp hx with rfl | hx
      · exact le_trans (le_max_right a x) h1
      · exact h2 x hx

theorem runMax_mem (a : Int) (rest : List Int) : runMax a rest ∈ a :: rest := by
  rcases foldl_max_choice rest a with h | h
  · rw [runMax, h]; exact List.mem_cons_self a rest
  · exact List.mem_cons_of_mem a h

theorem runMax_is_ub (a : Int) (rest : List Int) :
    ∀ x ∈ a :: rest, x ≤ runMax a rest := by
  intro x hx
  rcases List.mem_cons.mp hx with rfl | hx
  · exact (le_foldl_max rest x).1
  · exact (le_foldl_max rest a).2 x hx

theorem tagged_not_in_baseKeys (l : PeriodLabel) :
    ∀ s ∈ periodFieldSuffixes, (tagOf l ++ "_" ++ s) ∉ baseKeys := by
  cases l <;> decide

theorem tagged_mem_periodBlock_iff (l l' : PeriodLabel) :
    ∀ s ∈ periodFieldSuffixes, ((tagOf l ++ "_" ++ s) ∈ periodBlock l' ↔ l = l') := by
  cases l <;> cases l' <;> decide

/-! ## Claims -/

/-- C6: for every time window with start hour `h`, the markup/PDF period
classifier assigns AM iff `6 ≤ h ≤ 8`, MD iff `9 ≤ h ≤ 15`, PM iff
`16 ≤ h ≤ 19`, and UNCLASSIFIED otherwise; an unclassified window
contributes no period slot (the detection step leaves the state
unchanged). -/
theorem c6_classifier_rule (h : Nat) :
    (classifyStartHour h = .AM ↔ 6 ≤ h ∧ h ≤ 8) ∧
    (classifyStartHour h = .MD ↔ 9 ≤ h ∧ h ≤ 15) ∧
    (classifyStartHour h = .PM ↔ 16 ≤ h ∧ h ≤ 19) ∧
    (classifyStartHour h = .UNCLASSIFIED ↔
      ¬((6 ≤ h ∧ h ≤ 8) ∨ (9 ≤ h ∧ h ≤ 15) ∨ (16 ≤ h ∧ h ≤ 19))) ∧
    (∀ (s : SlotState) (i : Nat),
      classifyStartHour h = .UNCLASSIFIED → detectStep s i (some h) = s) := by
  refine ⟨?_, ?_, ?_, ?_, ?_⟩
  · unfold classifyStartHour; split_ifs <;> simp_all
  · unfold classifyStartHour; split_ifs <;> simp_all
    omega
  · unfold classifyStartHour; split_ifs <;> simp_all <;> omega
  · unfold classifyStartHour; split_ifs <;> simp_all
  · intro s i hu
    simp [detectStep, hu]

/-- Witness for C6 at `h = 5`: unclassified, and the detection step is a
no-op there. -/
theorem c6_classifier_rule_witness :
    detectStep initSlotState 2 (some 5) = initSlotState :=
  (c6_classifier_rule 5).2.2.2.2 initSlotState 2 (by decide)

/-- C4 counterexample: two detected windows of the same document both
classify to AM (start hours 6 then 7, anchors 2 then 3); the claim says the
first-detected anchor (2) is kept, but the code records the later anchor
(3): the later window overwrites the earlier one. -/
theorem c4_counterexample :
    (detectPeriods [(2, some 6), (3, some 7)]).amKey = some 3 ∧
    (detectPeriods [(2, some 6), (3, some 7)]).amKey ≠ some 2 := by
  decide

/-- C4 (amended): in the HTML and PDF adapters, when two detected windows
classify to the same label, the LAST-detected window's anchor is kept (a
later window overwrites an earlier one); in the spreadsheet adapter each
label has exactly one fixed candidate anchor (32 for AM, 62 for MD, 92 for
PM), so its recorded key can only be that anchor or none. -/
theorem c4_last_match_wins :
    (∀ (ws : List (Nat × Option Nat)) (j h : Nat),
       classifyStartHour h ≠ .UNCLASSIFIED →
       keyOf (classifyStartHour h) (detectPeriods (ws ++ [(j, some h)])) = some j) ∧
    (∀ window : Nat → Option (Int × Int),
       ((readXlsxDetect window).amKey = none ∨ (readXlsxDetect window).amKey = some 32) ∧
       ((readXlsxDetect window).mdKey = none ∨ (readXlsxDetect window).mdKey = some 62) ∧
       ((readXlsxDetect window).pmKey = none ∨ (readXlsxDetect window).pmKey = some 92)) := by
  constructor
  · intro ws j h hcl
    have hfold : detectPeriods (ws ++ [(j, some h)]) =
        detectStep (detectPeriods ws) j (some h) := by
      simp [detectPeriods, List.foldl_append]
    rw [hfold]
    rcases hc : classifyStartHour h with _ | _ | _ | _ <;>
      simp [detectStep, keyOf, hc] at hcl ⊢
  · intro window
    rcases h32 : window 32 with _ | ⟨st32, en32⟩ <;>
    rcases h62 : window 62 with _ | ⟨st62, en62⟩ <;>
    rcases h92 : window 92 with _ | ⟨st92, en92⟩ <;>
      simp [readXlsxDetect, xlsxDetectStep, h32, h62, h92, initXlsxSlotState] <;>
      split_ifs <;> simp_all

/-- Witness for C4: a later AM window at anchor 3 wins over the earlier one
at anchor 2; an all-empty spreadsheet yields no AM key. -/
theorem c4_last_match_wins_witness :
    keyOf (classifyStartHour 7) (detectPeriods ([(2, some 6)] ++ [(3, some 7)])) = some 3 ∧
    ((readXlsxDetect fun _ => none).amKey = none ∨
     (readXlsxDetect fun _ => none).amKey = some 32) :=
  ⟨c4_last_match_wins.1 [(2, some 6)] 3 7 (by decide),
   (c4_last_match_wins.2 (fun _ => none)).1⟩

/-- C8: in the spreadsheet adapter, a label's availability is set iff its
fixed anchor (32 for AM, 62 for MD, 92 for PM) yields a peak window whose
end minus start is exactly 3600 seconds; any other duration leaves the
label unavailable regardless of the anchor's content. -/
theorem c8_xlsx_duration_gate (window : Nat → Option (Int × Int)) :
    ((readXlsxDetect window).availAM = true ↔
       ∃ st en, window 32 = some (st, en) ∧ en - st = 3600) ∧
    ((readXlsxDetect window).availMD = true ↔
       ∃ st en, window 62 = some (st, en) ∧ en - st = 3600) ∧
    ((readXlsxDetect window).availPM = true ↔
       ∃ st en, window 92 = some (st, en) ∧ en - st = 3600) := by
  rcases h32 : window 32 with _ | ⟨st32, en32⟩ <;>
  rcases h62 : window 62 with _ | ⟨st62, en62⟩ <;>
  rcases h92 : window 92 with _ | ⟨st92, en92⟩ <;>
    simp [readXlsxDetect, xlsxDetectStep, h32, h62, h92, initXlsxSlotState] <;>
    split_ifs <;> simp_all <;> aesop

/-- C1: for every record assembly and every label, the per-period keys
(peak hour plus the twelve directional volumes, prefixed with the label's
tag) are present in the output record iff the label's availability flag and
its collect (scraped) flag are both true; otherwise every per-period key of
that label is absent from the record. -/
theorem c1_period_fields_iff_flags (f : Flags) (l : PeriodLabel) (s : String)
    (hs : s ∈ periodFieldSuffixes) :
    ((tagOf l ++ "_" ++ s) ∈ assembleKeys f ↔
      (availOf f l = true ∧ collectOf f l = true)) := by
  have hbase := tagged_not_in_baseKeys l s hs
  have hAM := tagged_mem_periodBlock_iff l .AM s hs
  have hMD := tagged_mem_periodBlock_iff l .MD s hs
  have hPM := tagged_mem_periodBlock_iff l .PM s hs
  obtain ⟨aAM, aMD, aPM, cAM, cMD, cPM⟩ := f
  simp only [assembleKeys, List.mem_append, controlCheck]
  cases l <;> cases aAM <;> cases aMD <;> cases aPM <;>
    cases cAM <;> cases cMD <;> cases cPM <;>
    simp_all [availOf, collectOf]

/-- Witness for C1: with AM available and everything requested, the AM peak
hour key is present iff both AM flags are true. -/
theorem c1_period_fields_iff_flags_witness :
    ((tagOf .AM ++ "_" ++ "peak_hour") ∈
        assembleKeys ⟨true, false, false, true, true, true⟩ ↔
      (availOf ⟨true, false, false, true, true, true⟩ .AM = true ∧
       collectOf ⟨true, false, false, true, true, true⟩ .AM = true)) :=
  c1_period_fields_iff_flags ⟨true, false, false, true, true, true⟩ .AM
    "peak_hour" (by decide)

/-- The step of `_set_filters` applied to the all-true defaults leaves
them unchanged: the body only ever assigns `True`. -/
theorem setFilters_step_default (k : String) :
    (if k = "AM" then { defaultFilterOptions with am := true }
     else if k = "PM" then { defaultFilterOptions with pm := true }
     else if k = "MD" then { defaultFilterOptions with md := true }
     else defaultFilterOptions) = defaultFilterOptions := by
  split_ifs <;> rfl

theorem setFilters_default (l : List String) :
    setFilters defaultFilterOptions l = defaultFilterOptions := by
  induction l with
  | nil => rfl
  | cons k ks ih =>
    show List.foldl _ _ (k :: ks) = _
    rw [List.foldl_cons, setFilters_step_default k]
    exact ih

/-- C2 (code bug): the period filter has no effect at all. `_set_filters`
only ever assigns `True` over all-`True` defaults, so every initialisation
— `None`, the empty list (falsy, so `_set_filters` is skipped), or any
subset of labels — yields `collect_am = collect_pm = collect_md = True`;
with the empty filter and an available AM period, the AM period block is
still emitted, contradicting the claim that no period block is populated. -/
theorem c2_filter_is_noop :
    (∀ pf : Option (List String), initFilters pf = defaultFilterOptions) ∧
    defaultFilterOptions = ⟨true, true, true⟩ ∧
    (initFilters (some []) = ⟨true, true, true⟩ ∧
     initFilters (some ["AM"]) = ⟨true, true, true⟩) ∧
    (tagOf .AM ++ "_" ++ "peak_hour") ∈
      assembleKeys ⟨true, true, true,
        (initFilters (some [])).am, (initFilters (some [])).md,
        (initFilters (some [])).pm⟩ := by
  refine ⟨?_, rfl, ⟨rfl, rfl⟩, by decide⟩
  intro pf
  rcases pf with _ | l
  · rfl
  · cases l with
    | nil => rfl
    | cons k ks =>
      show initFilters (some (k :: ks)) = _
      simp only [initFilters, List.isEmpty_cons, Bool.false_eq_true,
        if_false]
      exact setFilters_default (k :: ks)

/-- C3: the length-keyed east/west rule table of the PDF disambiguator, in
full: length > 4 gives west = first, east = last; length 4 with symmetric
pairs gives west = first, east = last, otherwise the maximum goes to each
end it equals and a side whose end it does not equal is absent; length 3
uses the same maximum rule; length 2 gives the manual-review sentinel on
both sides; length 0 or 1 gives both absent. The table is total: the three
quoted examples evaluate as the spec states. -/
theorem c3_east_west_rule_table :
    (∀ (a b c d e : Int) (rest : List Int),
       eastWest (a :: b :: c :: d :: e :: rest) =
         (.value ((a :: b :: c :: d :: e :: rest).getLastI), .value a)) ∧
    (∀ a b c d : Int, a = b → c = d →
       eastWest [a, b, c, d] = (.value d, .value a)) ∧
    (∀ a b c d : Int, ¬(a = b ∧ c = d) →
       ((max (max (max a b) c) d = d →
           (eastWest [a, b, c, d]).1 = .value (max (max (max a b) c) d)) ∧
        (max (max (max a b) c) d ≠ d → (eastWest [a, b, c, d]).1 = .absent) ∧
        (max (max (max a b) c) d = a →
           (eastWest [a, b, c, d]).2 = .value (max (max (max a b) c) d)) ∧
        (max (max (max a b) c) d ≠ a → (eastWest [a, b, c, d]).2 = .absent))) ∧
    (∀ a b c : Int,
       ((max (max a b) c = c → (eastWest [a, b, c]).1 = .value (max (max a b) c)) ∧
        (max (max a b) c ≠ c → (eastWest [a, b, c]).1 = .absent) ∧
        (max (max a b) c = a → (eastWest [a, b, c]).2 = .value (max (max a b) c)) ∧
        (max (max a b) c ≠ a → (eastWest [a, b, c]).2 = .absent))) ∧
    (∀ a b : Int, eastWest [a, b] = (.manualCheck, .manualCheck)) ∧
    (eastWest [] = (.absent, .absent) ∧
     ∀ a : Int, eastWest [a] = (.absent, .absent)) ∧
    (eastWest [10, 10, 20, 20] = (.value 20, .value 10) ∧
     eastWest [10, 15, 20] = (.value 20, .absent) ∧
     eastWest [5, 9] = (.manualCheck, .manualCheck)) := by
  refine ⟨fun a b c d e rest => rfl, ?_, ?_, ?_, fun a b => rfl,
    ⟨rfl, fun a => rfl⟩, by decide, by decide, by decide⟩
  · intro a b c d h1 h2
    subst h1; subst h2
    simp [eastWest]
  · intro a b c d hns
    rw [show eastWest [a, b, c, d] =
        (if a = b ∧ c = d then (.value d, .value a)
         else
           ((if max (max (max a b) c) d = d
               then .value (max (max (max a b) c) d) else .absent),
            (if max (max (max a b) c) d = a
               then .value (max (max (max a b) c) d) else .absent))) from rfl,
      if_neg hns]
    refine ⟨fun h => by rw [if_pos h], fun h => by rw [if_neg h],
      fun h => by rw [if_pos h], fun h => by rw [if_neg h]⟩
  · intro a b c
    rw [show eastWest [a, b, c] =
        ((if max (max a b) c = c then .value (max (max a b) c) else .absent),
         (if max (max a b) c = a then .value (max (max a b) c) else .absent))
      from rfl]
    refine ⟨fun h => by rw [if_pos h], fun h => by rw [if_neg h],
      fun h => by rw [if_pos h], fun h => by rw [if_neg h]⟩

/-- Witness for C3 at concrete runs: a symmetric 4-run, a non-symmetric
4-run whose maximum sits at the first position, and a 3-run whose maximum
sits at the last position. -/
theorem c3_east_west_rule_table_witness :
    eastWest [1, 1, 5, 5] = (.value 5, .value 1) ∧
    (eastWest [4, 1, 2, 3]).1 = .absent ∧
    (eastWest [4, 1, 2, 3]).2 = .value 4 ∧
    (eastWest [1, 2, 7]).1 = .value 7 ∧
    (eastWest [1, 2, 7]).2 = .absent :=
  ⟨c3_east_west_rule_table.2.1 1 1 5 5 rfl rfl,
   (c3_east_west_rule_table.2.2.1 4 1 2 3 (by decide)).2.1 (by decide),
   (c3_east_west_rule_table.2.2.1 4 1 2 3 (by decide)).2.2.1 (by decide),
   (c3_east_west_rule_table.2.2.2.1 1 2 7).1 (by decide),
   (c3_east_west_rule_table.2.2.2.1 1 2 7).2.2.2 (by decide)⟩

/-- C10: when the maximum of a 3-run, or of a non-symmetric 4-run, equals
both the first and the last element, the disambiguator assigns it to both
east and west simultaneously; in particular `[20, 10, 20]` gives east =
west = 20. -/
theorem c10_max_at_both_ends :
    (∀ a b c : Int, max (max a b) c = a → max (max a b) c = c →
       eastWest [a, b, c] =
         (.value (max (max a b) c), .value (max (max a b) c))) ∧
    (∀ a b c d : Int, ¬(a = b ∧ c = d) →
       max (max (max a b) c) d = a → max (max (max a b) c) d = d →
       eastWest [a, b, c, d] =
         (.value (max (max (max a b) c) d), .value (max (max (max a b) c) d))) ∧
    eastWest [20, 10, 20] = (.value 20, .value 20) := by
  refine ⟨?_, ?_, by decide⟩
  · intro a b c ha hc
    rw [show eastWest [a, b, c] =
        ((if max (max a b) c = c then .value (max (max a b) c) else .absent),
         (if max (max a b) c = a then .value (max (max a b) c) else .absent))
      from rfl, if_pos hc, if_pos ha]
  · intro a b c d hns ha hd
    rw [show eastWest [a, b, c, d] =
        (if a = b ∧ c = d then (.value d, .value a)
         else
           ((if max (max (max a b) c) d = d
               then .value (max (max (max a b) c) d) else .absent),
            (if max (max (max a b) c) d = a
               then .value (max (max (max a b) c) d) else .absent))) from rfl,
      if_neg hns, if_pos hd, if_pos ha]

/-- Witness for C10: `[20, 10, 20]` through the 3-run conjunct and
`[20, 5, 10, 20]` through the non-symmetric 4-run conjunct. -/
theorem c10_max_at_both_ends_witness :
    eastWest [20, 10, 20] = (.value 20, .value 20) ∧
    eastWest [20, 5, 10, 20] = (.value 20, .value 20) :=
  ⟨c10_max_at_both_ends.1 20 10 20 (by decide) (by decide),
   c10_max_at_both_ends.2.1 20 5 10 20 (by decide) (by decide) (by decide)⟩

/-- C9: in every PDF period segment, the north vehicle volume is the first
number of scan 1's run when nonempty and absent otherwise, the south
vehicle volume is the maximum of scan 3's run when nonempty and absent
otherwise, and both are independent of scan 2's run (the east/west
input). -/
theorem c9_north_south_rule :
    (∀ r1 r2 : List Int, (get_veh_vol [] r1 r2).north = .absent) ∧
    (∀ (a : Int) (t r1 r2 : List Int),
       (get_veh_vol (a :: t) r1 r2).north = .value a) ∧
    (∀ r0 r1 : List Int, (get_veh_vol r0 r1 []).south = .absent) ∧
    (∀ (a : Int) (t r0 r1 : List Int), ∃ m : Int,
       (get_veh_vol r0 r1 (a :: t)).south = .value m ∧
       m ∈ (a :: t) ∧ ∀ x ∈ (a :: t), x ≤ m) ∧
    (∀ r0 r1 r1' r2 : List Int,
       (get_veh_vol r0 r1 r2).north = (get_veh_vol r0 r1' r2).north ∧
       (get_veh_vol r0 r1 r2).south = (get_veh_vol r0 r1' r2).south) := by
  refine ⟨fun r1 r2 => rfl, fun a t r1 r2 => rfl, fun r0 r1 => rfl, ?_,
    fun r0 r1 r1' r2 => ⟨rfl, rfl⟩⟩
  intro a t r0 r1
  exact ⟨runMax a t, rfl, runMax_mem a t, runMax_is_ub a t⟩

/-- C5 counterexample: on a segment whose tagged numbers are "0" .. "7",
the north-ped field holds the number at position 1, not position 0, and the
west-ped field holds position 3, not position 2 — the claimed order
(ped before bike for north and west) does not match the code, which
assigns bike before ped for those two directions. -/
theorem c5_counterexample :
    (pdfPedsBikes segEx).north_peds ≠ (pbNumbers segEx)[0]? ∧
    (pdfPedsBikes segEx).north_bikes ≠ (pbNumbers segEx)[1]? ∧
    (pdfPedsBikes segEx).west_peds ≠ (pbNumbers segEx)[2]? ∧
    (pdfPedsBikes segEx).west_bikes ≠ (pbNumbers segEx)[3]? ∧
    (pdfPedsBikes segEx).north_peds = some "1" ∧
    (pbNumbers segEx)[0]? = some "0" := by
  decide

/-- C5 (amended): the first eight keyword-tagged numbers of a PDF period
segment are assigned in the fixed order north-bike, north-ped, west-bike,
west-ped, east-ped, east-bike, south-ped, south-bike (positions 0-7); the
captured list never exceeds eight entries, and every position at or beyond
the list length yields absent. -/
theorem c5_pdf_peds_bikes_positions (segment : List PdfToken) :
    (pdfPedsBikes segment).north_bikes = (pbNumbers segment)[0]? ∧
    (pdfPedsBikes segment).north_peds = (pbNumbers segment)[1]? ∧
    (pdfPedsBikes segment).west_bikes = (pbNumbers segment)[2]? ∧
    (pdfPedsBikes segment).west_peds = (pbNumbers segment)[3]? ∧
    (pdfPedsBikes segment).east_peds = (pbNumbers segment)[4]? ∧
    (pdfPedsBikes segment).east_bikes = (pbNumbers segment)[5]? ∧
    (pdfPedsBikes segment).south_peds = (pbNumbers segment)[6]? ∧
    (pdfPedsBikes segment).south_bikes = (pbNumbers segment)[7]? ∧
    (pbNumbers segment).length ≤ 8 ∧
    (∀ i : Nat, (pbNumbers segment).length ≤ i →
       (pbNumbers segment)[i]? = none) := by
  refine ⟨rfl, rfl, rfl, rfl, rfl, rfl, rfl, rfl, ?_, ?_⟩
  · exact List.length_take_le 8 _
  · intro i hi
    exact List.getElem?_eq_none hi

/-- Witness for C5: on the concrete segment, position 9 (beyond the list
length) is absent. -/
theorem c5_pdf_peds_bikes_positions_witness :
    (pbNumbers segEx)[9]? = none :=
  (c5_pdf_peds_bikes_positions segEx).2.2.2.2.2.2.2.2.2 9 (by decide)

/-- C7 counterexample: a nonempty selection whose first text holds no
digits ("Bikes") makes the locator raise (the `[0]` subscript on an empty
`findall` result), and the document-level handler then drops the whole
record — no record with the field absent is emitted. -/
theorem c7_counterexample :
    get_north_bikes_vol ["Bikes"] =
      .error "IndexError: list index out of range" ∧
    scrapeRecordNorthBikes "AM" ["Bikes"] = none :=
  ⟨rfl, rfl⟩

/-- C7 (amended): when the structural lookup yields no element, the field
resolves to absent inside the locator and the record is still emitted with
the field absent; but when an element is located whose text holds no digit
run, the locator raises an indexing error that escapes it and aborts the
whole record; when a digit run exists, its first run is returned and the
record carries it. -/
theorem c7_field_fault_policy (elements : List String) :
    (elements = [] →
       get_north_bikes_vol elements = .ok none ∧
       scrapeRecordNorthBikes "AM" elements =
         some [("AM" ++ "_north_bikes_vol", none)]) ∧
    (∀ e t, elements = e :: t → digitRuns e = [] →
       get_north_bikes_vol elements =
         .error "IndexError: list index out of range" ∧
       scrapeRecordNorthBikes "AM" elements = none) ∧
    (∀ e t d ds, elements = e :: t → digitRuns e = d :: ds →
       get_north_bikes_vol elements = .ok (some d) ∧
       scrapeRecordNorthBikes "AM" elements =
         some [("AM" ++ "_north_bikes_vol", some d)]) := by
  refine ⟨?_, ?_, ?_⟩
  · rintro rfl
    exact ⟨rfl, rfl⟩
  · rintro e t rfl hd
    simp [get_north_bikes_vol, scrapeRecordNorthBikes, hd]
  · rintro e t d ds rfl hd
    simp [get_north_bikes_vol, scrapeRecordNorthBikes, hd]

/-- Witness for C7: empty selection gives an emitted record with the field
absent; a digit-less selected text gives no record; a text with a digit run
gives the run's first number. -/
theorem c7_field_fault_policy_witness :
    get_north_bikes_vol [] = .ok none ∧
    scrapeRecordNorthBikes "AM" ["Bikes"] = none ∧
    get_north_bikes_vol ["x12"] = .ok (some "12") :=
  ⟨((c7_field_fault_policy []).1 rfl).1,
   ((c7_field_fault_policy ["Bikes"]).2.1 "Bikes" [] rfl (by rfl)).2,
   ((c7_field_fault_policy ["x12"]).2.2 "x12" [] "12" [] rfl (by rfl)).1⟩

end TMCScrape
